import Mathlib

/-
Verification of src/docling/simple.py.

The script is a straight-line converter-invocation shim:

  converter = DocumentConverter()
  result = converter.convert(source="https://arxiv.org/pdf/2206.01062")
  doc = result.document
  md_result = doc.export_to_markdown()
  with open("output.md", "w", encoding="utf-8") as f:
      f.write(md_result)

The external docling library is opaque to this repository, so it is
modelled as an environment: a behaviour for the convert call, a
behaviour for the Markdown export call, and a flag saying whether the
file-system write succeeds.  The script itself is embedded as a function
producing the trace of externally visible events, the final file system,
and the process outcome (normal termination or an unhandled error).
-/

/-- Opaque document handle exposed by the conversion result
(the value of result.document in the source). -/
structure Doc where
  id : Nat
deriving DecidableEq, Repr

/-- Opaque object returned by converter.convert; the script reads exactly
one property of it, the document handle. -/
structure ConversionResult where
  document : Doc
deriving DecidableEq, Repr

/-- Behaviour of the external docling library and of the file-system
write, as seen from the script.  convert and export_to_markdown may each
raise (modelled as Except.error); write_ok says whether the single
f.write call succeeds. -/
structure DoclingLib where
  convert : String → Except String ConversionResult
  export_to_markdown : Doc → Except String String
  write_ok : Bool

/-- File system: an association list from paths to file contents. -/
abbrev FS := List (String × String)

/-- Read the content of a file, if present. -/
def getFile : FS → String → Option String
  | [], _ => none
  | (p, c) :: rest, q => if p = q then some c else getFile rest q

/-- Write (create or fully replace) the content of a file. -/
def setFile (fs : FS) (p c : String) : FS := (p, c) :: fs

/-- Externally visible events of one run of the script. -/
inductive Event where
  | convertCall (source : String)
  | exportCall (doc : Doc)
  | openFile (path : String) (mode : String) (encoding : String)
  | writeCall (path : String) (content : String)
  | closeFile (path : String)
deriving DecidableEq, Repr

/-- Whether an event is a converter.convert call. -/
def Event.isConvertCall : Event → Bool
  | .convertCall _ => true
  | _ => false

/-- Whether an event is an export_to_markdown call. -/
def Event.isExportCall : Event → Bool
  | .exportCall _ => true
  | _ => false

/-- Whether an event opens a file. -/
def Event.isOpenFile : Event → Bool
  | .openFile _ _ _ => true
  | _ => false

/-- Whether an event is an f.write call. -/
def Event.isWriteCall : Event → Bool
  | .writeCall _ _ => true
  | _ => false

/-- Whether an event closes a file. -/
def Event.isCloseFile : Event → Bool
  | .closeFile _ => true
  | _ => false

/-- The hard-coded source locator passed to converter.convert. -/
def sourceURL : String := "https://arxiv.org/pdf/2206.01062"

/-- The hard-coded output path opened for writing. -/
def outputPath : String := "output.md"

/-- Result of one run of the script: the event trace, the final file
system, and the process outcome (ok on normal termination, error when an
unhandled exception reaches the process boundary). -/
structure RunResult where
  trace : List Event
  fs : FS
  outcome : Except String Unit
deriving Repr

/-- Shallow embedding of the module body of src/docling/simple.py.
The argv and envVars parameters are the process inputs that the script
never reads; they appear only to state that the behaviour does not
depend on them.  Python semantics of the with-statement: open in mode
"w" truncates the file first, and the file is closed on every exit path
of the with-block, including when f.write raises. -/
def runScript (lib : DoclingLib) (fs : FS)
    (_argv : List String) (_envVars : List (String × String)) : RunResult :=
  match lib.convert sourceURL with
  | .error e => ⟨[.convertCall sourceURL], fs, .error e⟩
  | .ok result =>
    let doc := result.document
    match lib.export_to_markdown doc with
    | .error e => ⟨[.convertCall sourceURL, .exportCall doc], fs, .error e⟩
    | .ok md_result =>
      let fsTruncated := setFile fs outputPath ""
      if lib.write_ok then
        ⟨[.convertCall sourceURL, .exportCall doc,
          .openFile outputPath "w" "utf-8",
          .writeCall outputPath md_result,
          .closeFile outputPath],
         setFile fsTruncated outputPath md_result, .ok ()⟩
      else
        ⟨[.convertCall sourceURL, .exportCall doc,
          .openFile outputPath "w" "utf-8",
          .writeCall outputPath md_result,
          .closeFile outputPath],
         fsTruncated, .error "write error"⟩

/-- A library behaviour on which every stage succeeds. -/
def okLib : DoclingLib where
  convert := fun _ => .ok ⟨⟨0⟩⟩
  export_to_markdown := fun _ => .ok "# DocLayNet"
  write_ok := true

/-- A library behaviour whose convert call raises (unreachable URL). -/
def convertFailLib : DoclingLib where
  convert := fun _ => .error "network error"
  export_to_markdown := fun _ => .ok "# DocLayNet"
  write_ok := true

/-- A library behaviour whose export_to_markdown call raises. -/
def exportFailLib : DoclingLib where
  convert := fun _ => .ok ⟨⟨0⟩⟩
  export_to_markdown := fun _ => .error "export error"
  write_ok := true

/-- A library behaviour on which the final f.write raises. -/
def writeFailLib : DoclingLib where
  convert := fun _ => .ok ⟨⟨0⟩⟩
  export_to_markdown := fun _ => .ok "# DocLayNet"
  write_ok := false

/-- A library behaviour whose export_to_markdown returns the empty
string while conversion succeeds. -/
def emptyExportLib : DoclingLib where
  convert := fun _ => .ok ⟨⟨0⟩⟩
  export_to_markdown := fun _ => .ok ""
  write_ok := true

theorem getFile_setFile_self (fs : FS) (p c : String) :
    getFile (setFile fs p c) p = some c := by
  simp [getFile, setFile]

theorem getFile_setFile_ne (fs : FS) (p q c : String) (h : q ≠ p) :
    getFile (setFile fs p c) q = getFile fs q := by
  simp [getFile, setFile, Ne.symm h]

/-- C1: in every run in which the convert call and the
export_to_markdown call both succeed (and the environment lets the
single write go through), the script terminates normally and the file at
the fixed path output.md holds exactly the string returned by
export_to_markdown, with no transformation of that string. -/
theorem success_writes_exact_export_output
    (lib : DoclingLib) (fs : FS) (argv : List String)
    (envVars : List (String × String)) (r : ConversionResult) (md : String)
    (h1 : lib.convert sourceURL = .ok r)
    (h2 : lib.export_to_markdown r.document = .ok md)
    (h3 : lib.write_ok = true) :
    getFile (runScript lib fs argv envVars).fs outputPath = some md ∧
    (runScript lib fs argv envVars).outcome = .ok () := by
  simp [runScript, h1, h2, h3, getFile_setFile_self]

/-- C1 witness: with a concrete all-succeeding library the file content
is exactly the exported string. -/
theorem success_writes_exact_export_output_witness :
    getFile (runScript okLib [] [] []).fs outputPath = some "# DocLayNet" ∧
    (runScript okLib [] [] []).outcome = .ok () :=
  success_writes_exact_export_output okLib [] [] [] ⟨⟨0⟩⟩ "# DocLayNet"
    rfl rfl rfl

/-- C2: if the convert call raises, the file system is untouched (in
particular output.md is neither created nor modified), no file is ever
opened or written, and the process terminates with the failure. -/
theorem convert_failure_leaves_fs_untouched
    (lib : DoclingLib) (fs : FS) (argv : List String)
    (envVars : List (String × String)) (e : String)
    (h : lib.convert sourceURL = .error e) :
    (runScript lib fs argv envVars).fs = fs ∧
    (runScript lib fs argv envVars).outcome = .error e ∧
    (runScript lib fs argv envVars).trace.countP Event.isOpenFile = 0 ∧
    (runScript lib fs argv envVars).trace.countP Event.isWriteCall = 0 := by
  simp [runScript, h, Event.isOpenFile, Event.isWriteCall]

/-- C2 witness: a concrete library whose convert raises leaves a
pre-existing output.md exactly as it was. -/
theorem convert_failure_leaves_fs_untouched_witness :
    (runScript convertFailLib [(outputPath, "old")] [] []).fs
      = [(outputPath, "old")] ∧
    (runScript convertFailLib [(outputPath, "old")] [] []).outcome
      = .error "network error" ∧
    (runScript convertFailLib [(outputPath, "old")] [] []).trace.countP
      Event.isOpenFile = 0 ∧
    (runScript convertFailLib [(outputPath, "old")] [] []).trace.countP
      Event.isWriteCall = 0 :=
  convert_failure_leaves_fs_untouched convertFailLib [(outputPath, "old")]
    [] [] "network error" rfl

/-- C3: every error raised during conversion, Markdown export, or the
file write propagates unhandled and becomes the process outcome; there
is no handler, retry or recovery: the convert call happens exactly once
and the export and write calls happen at most once on any run. -/
theorem errors_propagate_unhandled
    (lib : DoclingLib) (fs : FS) (argv : List String)
    (envVars : List (String × String)) :
    (∀ e, lib.convert sourceURL = .error e →
      (runScript lib fs argv envVars).outcome = .error e) ∧
    (∀ r e, lib.convert sourceURL = .ok r →
      lib.export_to_markdown r.document = .error e →
      (runScript lib fs argv envVars).outcome = .error e) ∧
    (∀ r md, lib.convert sourceURL = .ok r →
      lib.export_to_markdown r.document = .ok md →
      lib.write_ok = false →
      (runScript lib fs argv envVars).outcome = .error "write error") ∧
    (runScript lib fs argv envVars).trace.countP Event.isConvertCall = 1 ∧
    (runScript lib fs argv envVars).trace.countP Event.isExportCall ≤ 1 ∧
    (runScript lib fs argv envVars).trace.countP Event.isWriteCall ≤ 1 := by
  refine ⟨fun e h => by simp [runScript, h],
    fun r e h1 h2 => by simp [runScript, h1, h2],
    fun r md h1 h2 h3 => by simp [runScript, h1, h2, h3], ?_, ?_, ?_⟩ <;>
  · cases hc : lib.convert sourceURL with
    | error e =>
      simp [runScript, hc, Event.isConvertCall, Event.isExportCall,
        Event.isWriteCall]
    | ok r =>
      cases he : lib.export_to_markdown r.document with
      | error e =>
        simp [runScript, hc, he, Event.isConvertCall, Event.isExportCall,
          Event.isWriteCall]
      | ok md =>
        cases hw : lib.write_ok <;>
        simp [runScript, hc, he, hw, Event.isConvertCall,
          Event.isExportCall, Event.isWriteCall]

/-- C3 witness: each of the three failure stages yields the
corresponding process failure on a concrete library. -/
theorem errors_propagate_unhandled_witness :
    (runScript convertFailLib [] [] []).outcome = .error "network error" ∧
    (runScript exportFailLib [] [] []).outcome = .error "export error" ∧
    (runScript writeFailLib [] [] []).outcome = .error "write error" :=
  ⟨(errors_propagate_unhandled convertFailLib [] [] []).1 "network error" rfl,
   (errors_propagate_unhandled exportFailLib [] [] []).2.1 ⟨⟨0⟩⟩
     "export error" rfl rfl,
   (errors_propagate_unhandled writeFailLib [] [] []).2.2.1 ⟨⟨0⟩⟩
     "# DocLayNet" rfl rfl rfl⟩

/-- C4: on every successful run the script opens the single hard-coded
relative path output.md in mode "w" with UTF-8 encoding, and the final
content of output.md does not depend on what was there before: any
existing file is fully replaced, never appended to. -/
theorem successful_run_overwrites_output_md
    (lib : DoclingLib) (fs : FS) (argv : List String)
    (envVars : List (String × String))
    (h : (runScript lib fs argv envVars).outcome = .ok ()) :
    Event.openFile outputPath "w" "utf-8"
      ∈ (runScript lib fs argv envVars).trace ∧
    (∀ fs2 : FS, getFile (runScript lib fs2 argv envVars).fs outputPath =
      getFile (runScript lib fs argv envVars).fs outputPath) := by
  cases hc : lib.convert sourceURL with
  | error e => simp [runScript, hc] at h
  | ok r =>
    cases he : lib.export_to_markdown r.document with
    | error e => simp [runScript, hc, he] at h
    | ok md =>
      cases hw : lib.write_ok
      · simp [runScript, hc, he, hw] at h
      · refine ⟨by simp [runScript, hc, he, hw], fun fs2 => ?_⟩
        simp [runScript, hc, he, hw, getFile_setFile_self]

/-- C4 witness: starting from a file system where output.md already
holds stale text, a successful run opens output.md in "w"/UTF-8 mode and
leaves the same final content as a run started from an empty file
system. -/
theorem successful_run_overwrites_output_md_witness :
    Event.openFile outputPath "w" "utf-8"
      ∈ (runScript okLib [(outputPath, "old")] [] []).trace ∧
    (∀ fs2 : FS, getFile (runScript okLib fs2 [] []).fs outputPath =
      getFile (runScript okLib [(outputPath, "old")] [] []).fs outputPath) :=
  successful_run_overwrites_output_md okLib [(outputPath, "old")] [] [] rfl

/-- C5: the run is insensitive to command-line arguments and environment
variables, every convert call in the trace passes exactly the hard-coded
source locator, and that locator is the literal arXiv URL. -/
theorem source_hardcoded_no_runtime_input
    (lib : DoclingLib) (fs : FS) :
    (∀ argv envVars argv2 envVars2,
      runScript lib fs argv envVars = runScript lib fs argv2 envVars2) ∧
    (∀ argv envVars s, Event.convertCall s
        ∈ (runScript lib fs argv envVars).trace → s = sourceURL) ∧
    sourceURL = "https://arxiv.org/pdf/2206.01062" := by
  refine ⟨fun _ _ _ _ => rfl, fun argv envVars s hs => ?_, rfl⟩
  cases hc : lib.convert sourceURL with
  | error e => simpa [runScript, hc] using hs
  | ok r =>
    cases he : lib.export_to_markdown r.document with
    | error e => simpa [runScript, hc, he] using hs
    | ok md =>
      cases hw : lib.write_ok <;> simpa [runScript, hc, he, hw] using hs

/-- C5 witness: at a concrete library, two runs with different argv and
environment agree, and the convert call in the trace carries the
hard-coded URL. -/
theorem source_hardcoded_no_runtime_input_witness :
    runScript okLib [] ["--fast"] [("HOME", "/root")]
      = runScript okLib [] [] [] ∧
    "https://arxiv.org/pdf/2206.01062" = sourceURL :=
  ⟨(source_hardcoded_no_runtime_input okLib []).1 ["--fast"]
      [("HOME", "/root")] [] [],
   (source_hardcoded_no_runtime_input okLib []).2.1 [] []
      "https://arxiv.org/pdf/2206.01062"
      (by simp [runScript, okLib, sourceURL])⟩

/-- C7: running the script twice in succession against the same library
behaviour leaves output.md with the same final content as running it
once; the embedded library is a function, hence deterministic across the
two runs. -/
theorem rerun_idempotent_output_content
    (lib : DoclingLib) (fs : FS) (argv : List String)
    (envVars : List (String × String)) :
    getFile (runScript lib (runScript lib fs argv envVars).fs
        argv envVars).fs outputPath =
      getFile (runScript lib fs argv envVars).fs outputPath := by
  cases hc : lib.convert sourceURL with
  | error e => simp [runScript, hc]
  | ok r =>
    cases he : lib.export_to_markdown r.document with
    | error e => simp [runScript, hc, he]
    | ok md =>
      cases hw : lib.write_ok <;>
      simp [runScript, hc, he, hw, getFile_setFile_self]

/-- C6 counterexample: a run on which conversion succeeds but the
library exports the empty string terminates normally with output.md
existing and holding the empty string, so the script does not guarantee
non-empty contents: it performs no validation of the exported text. -/
theorem empty_export_gives_empty_output :
    emptyExportLib.convert sourceURL = .ok ⟨⟨0⟩⟩ ∧
    (runScript emptyExportLib [] [] []).outcome = .ok () ∧
    getFile (runScript emptyExportLib [] [] []).fs outputPath = some "" :=
  ⟨rfl, rfl, by simp [runScript, emptyExportLib, getFile_setFile_self]⟩

/-- C6 amended: for every run on which the conversion and export
succeed (and the write goes through), output.md exists afterwards and
holds exactly the exported string; its contents are non-empty whenever
the string the library exports is non-empty. -/
theorem success_output_exists_nonempty_iff_export
    (lib : DoclingLib) (fs : FS) (argv : List String)
    (envVars : List (String × String)) (r : ConversionResult) (md : String)
    (h1 : lib.convert sourceURL = .ok r)
    (h2 : lib.export_to_markdown r.document = .ok md)
    (h3 : lib.write_ok = true) :
    getFile (runScript lib fs argv envVars).fs outputPath = some md ∧
    (md ≠ "" → ∃ c, getFile (runScript lib fs argv envVars).fs outputPath
      = some c ∧ c ≠ "") := by
  have hmain : getFile (runScript lib fs argv envVars).fs outputPath
      = some md := by
    simp [runScript, h1, h2, h3, getFile_setFile_self]
  exact ⟨hmain, fun hne => ⟨md, hmain, hne⟩⟩

/-- C6 amended witness: with a concrete library exporting a non-empty
string, output.md exists and is non-empty. -/
theorem success_output_exists_nonempty_iff_export_witness :
    getFile (runScript okLib [] [] []).fs outputPath = some "# DocLayNet" ∧
    ∃ c, getFile (runScript okLib [] [] []).fs outputPath = some c
      ∧ c ≠ "" :=
  ⟨(success_output_exists_nonempty_iff_export okLib [] [] [] ⟨⟨0⟩⟩
      "# DocLayNet" rfl rfl rfl).1,
   (success_output_exists_nonempty_iff_export okLib [] [] [] ⟨⟨0⟩⟩
      "# DocLayNet" rfl rfl rfl).2 (by simp)⟩

/-- C8: the script's only effects are the single convert call (inside
which any network fetch happens) and file activity on output.md: every
other path in the file system is left exactly as it was, every open and
every write in the trace targets output.md, the convert call happens
exactly once, and at most one write ever happens. -/
theorem side_effects_frame
    (lib : DoclingLib) (fs : FS) (argv : List String)
    (envVars : List (String × String)) :
    (∀ p, p ≠ outputPath →
      getFile (runScript lib fs argv envVars).fs p = getFile fs p) ∧
    (runScript lib fs argv envVars).trace.countP Event.isConvertCall = 1 ∧
    (∀ p m enc, Event.openFile p m enc
        ∈ (runScript lib fs argv envVars).trace → p = outputPath) ∧
    (∀ p c, Event.writeCall p c
        ∈ (runScript lib fs argv envVars).trace → p = outputPath) ∧
    (runScript lib fs argv envVars).trace.countP Event.isWriteCall ≤ 1 := by
  refine ⟨fun p hp => ?_, ?_, fun p m enc hmem => ?_,
    fun p c hmem => ?_, ?_⟩
  · cases hc : lib.convert sourceURL with
    | error e => simp [runScript, hc]
    | ok r =>
      cases he : lib.export_to_markdown r.document with
      | error e => simp [runScript, hc, he]
      | ok md =>
        cases hw : lib.write_ok <;>
        simp [runScript, hc, he, hw, getFile_setFile_ne _ _ _ _ hp]
  · cases hc : lib.convert sourceURL with
    | error e => simp [runScript, hc, Event.isConvertCall]
    | ok r =>
      cases he : lib.export_to_markdown r.document with
      | error e => simp [runScript, hc, he, Event.isConvertCall]
      | ok md =>
        cases hw : lib.write_ok <;>
        simp [runScript, hc, he, hw, Event.isConvertCall]
  · cases hc : lib.convert sourceURL with
    | error e => simp [runScript, hc] at hmem
    | ok r =>
      cases he : lib.export_to_markdown r.document with
      | error e => simp [runScript, hc, he] at hmem
      | ok md =>
        cases hw : lib.write_ok <;>
        · simp [runScript, hc, he, hw] at hmem
          exact hmem.1
  · cases hc : lib.convert sourceURL with
    | error e => simp [runScript, hc] at hmem
    | ok r =>
      cases he : lib.export_to_markdown r.document with
      | error e => simp [runScript, hc, he] at hmem
      | ok md =>
        cases hw : lib.write_ok <;>
        · simp [runScript, hc, he, hw] at hmem
          exact hmem.1
  · cases hc : lib.convert sourceURL with
    | error e => simp [runScript, hc, Event.isWriteCall]
    | ok r =>
      cases he : lib.export_to_markdown r.document with
      | error e => simp [runScript, hc, he, Event.isWriteCall]
      | ok md =>
        cases hw : lib.write_ok <;>
        simp [runScript, hc, he, hw, Event.isWriteCall]

/-- C8 witness: a concrete run leaves an unrelated file untouched, and
the open observed in the trace targets output.md. -/
theorem side_effects_frame_witness :
    getFile (runScript okLib [("other.txt", "keep")] [] []).fs "other.txt"
      = getFile [("other.txt", "keep")] "other.txt" ∧
    outputPath = outputPath :=
  ⟨(side_effects_frame okLib [("other.txt", "keep")] [] []).1 "other.txt"
      (by decide),
   (side_effects_frame okLib [("other.txt", "keep")] [] []).2.2.1
      outputPath "w" "utf-8" (by simp [runScript, okLib])⟩

/-- C9: the control flow is strictly sequential with no branching or
loops: on convert failure the trace is the convert call alone; on export
failure it is convert then export; when both succeed it is convert, then
export, then open, write and close of output.md, so a failure at any
stage prevents every later effect. -/
theorem sequential_control_flow
    (lib : DoclingLib) (fs : FS) (argv : List String)
    (envVars : List (String × String)) :
    (∀ e, lib.convert sourceURL = .error e →
      (runScript lib fs argv envVars).trace = [.convertCall sourceURL]) ∧
    (∀ r e, lib.convert sourceURL = .ok r →
      lib.export_to_markdown r.document = .error e →
      (runScript lib fs argv envVars).trace =
        [.convertCall sourceURL, .exportCall r.document]) ∧
    (∀ r md, lib.convert sourceURL = .ok r →
      lib.export_to_markdown r.document = .ok md →
      (runScript lib fs argv envVars).trace =
        [.convertCall sourceURL, .exportCall r.document,
         .openFile outputPath "w" "utf-8",
         .writeCall outputPath md,
         .closeFile outputPath]) := by
  refine ⟨fun e h => by simp [runScript, h],
    fun r e h1 h2 => by simp [runScript, h1, h2],
    fun r md h1 h2 => ?_⟩
  cases hw : lib.write_ok <;> simp [runScript, h1, h2, hw]

/-- C9 witness: the three trace shapes are realised by concrete
libraries failing at each stage or succeeding throughout. -/
theorem sequential_control_flow_witness :
    (runScript convertFailLib [] [] []).trace
      = [.convertCall sourceURL] ∧
    (runScript exportFailLib [] [] []).trace
      = [.convertCall sourceURL, .exportCall ⟨0⟩] ∧
    (runScript okLib [] [] []).trace
      = [.convertCall sourceURL, .exportCall ⟨0⟩,
         .openFile outputPath "w" "utf-8",
         .writeCall outputPath "# DocLayNet",
         .closeFile outputPath] :=
  ⟨(sequential_control_flow convertFailLib [] [] []).1 "network error" rfl,
   (sequential_control_flow exportFailLib [] [] []).2.1 ⟨⟨0⟩⟩
     "export error" rfl rfl,
   (sequential_control_flow okLib [] [] []).2.2 ⟨⟨0⟩⟩ "# DocLayNet"
     rfl rfl⟩

/-- C10: the output file handle is always released: on every run the
number of close events equals the number of open events, and whenever
output.md is opened it is also closed, including the run on which
f.write itself raises. -/
theorem file_handle_always_closed
    (lib : DoclingLib) (fs : FS) (argv : List String)
    (envVars : List (String × String)) :
    (runScript lib fs argv envVars).trace.countP Event.isOpenFile =
      (runScript lib fs argv envVars).trace.countP Event.isCloseFile ∧
    (∀ p m enc, Event.openFile p m enc
        ∈ (runScript lib fs argv envVars).trace →
      Event.closeFile p ∈ (runScript lib fs argv envVars).trace) := by
  refine ⟨?_, fun p m enc hmem => ?_⟩
  · cases hc : lib.convert sourceURL with
    | error e => simp [runScript, hc, Event.isOpenFile, Event.isCloseFile]
    | ok r =>
      cases he : lib.export_to_markdown r.document with
      | error e =>
        simp [runScript, hc, he, Event.isOpenFile, Event.isCloseFile]
      | ok md =>
        cases hw : lib.write_ok <;>
        simp [runScript, hc, he, hw, Event.isOpenFile, Event.isCloseFile]
  · cases hc : lib.convert sourceURL with
    | error e => simp [runScript, hc] at hmem
    | ok r =>
      cases he : lib.export_to_markdown r.document with
      | error e => simp [runScript, hc, he] at hmem
      | ok md =>
        cases hw : lib.write_ok <;>
        · simp [runScript, hc, he, hw] at hmem
          simp [runScript, hc, he, hw, hmem.1]

/-- C10 witness: on the concrete run where f.write raises, the close of
output.md still appears in the trace. -/
theorem file_handle_always_closed_witness :
    Event.closeFile outputPath ∈ (runScript writeFailLib [] [] []).trace :=
  (file_handle_always_closed writeFailLib [] [] []).2 outputPath "w"
    "utf-8" (by simp [runScript, writeFailLib])
